import Mathlib

/-!
Verification development for the `mk` privilege-escalation tool.

Each Rust function relevant to the specification is shallowly embedded as a Lean
definition: machine integers become `Nat`/`Int` with explicit wrapping where the
source can wrap, fallible code returns `Except`/`Option`, and process-wide
mutable state (the `crypt` lock, the session timestamp, the authenticated-user
cache) is threaded explicitly.  External effects (the native `crypt` routine,
the shadow-record lookup, the terminal prompt) are passed in as data so that the
control flow of the embedded function is exactly that of the source.
-/

namespace Mk

/-- `FfiError` from `crates/mk-common/src/errors.rs`: boundary-conversion error
variants.  `NulByte`, `Utf8`, `InvalidPtr`, `ResourceUnavailable`, `IoError`. -/
inductive FfiError
  | nulByte
  | utf8
  | invalidPtr
  | resourceUnavailable
  | ioError
deriving DecidableEq, Repr

/-- A byte string handed back by native code: it decodes to `text` when
`utf8Valid` is true, and `CStr::to_str` fails on it otherwise. -/
structure CBytes where
  utf8Valid : Bool
  text : String
deriving DecidableEq, Repr

/-- `CString::new` fails exactly when the Rust string has an interior nul byte. -/
def hasNul (s : String) : Bool := s.data.contains (Char.ofNat 0)

/-- `mk_crypt::crypt` from `crates/mk-crypt/src/lib.rs:32-65`, as a transition on
the process-wide `CRYPT_LOCK` flag.  `lock` is the flag's value on entry and
`ffiCrypt` the behaviour of the native `ffi::crypt` call (`none` models a null
return).  The result pairs the call's return value with the flag's value at the
moment the call returns.  Source order: test the flag, store `true`, build the
two `CString`s (each `?` can return early), call `ffi::crypt`, store `false`,
null-check, decode UTF-8. -/
def crypt (lock : Bool) (ffiCrypt : String → String → Option CBytes)
    (phrase setting : String) : Except FfiError String × Bool :=
  if lock then (Except.error FfiError.invalidPtr, lock)
  else if hasNul phrase then (Except.error FfiError.nulByte, true)
  else if hasNul setting then (Except.error FfiError.nulByte, true)
  else
    match ffiCrypt phrase setting with
    | none => (Except.error FfiError.invalidPtr, false)
    | some b =>
      if b.utf8Valid then (Except.ok b.text, false) else (Except.error FfiError.utf8, false)

/-- A native crypt behaviour that always hashes successfully. -/
def ffiOk : String → String → Option CBytes := fun _ _ => some ⟨true, "$6$hash"⟩

/-- A native crypt behaviour that returns the null pointer. -/
def ffiNull : String → String → Option CBytes := fun _ _ => none

/-- A phrase with an interior nul byte. -/
def nulStr : String := String.mk ['a', Char.ofNat 0, 'b']

/-- `PamError` from `crates/mk-pam/src/errors.rs:42-203`, base variant set (the
`open-pam`/`linux-pam` feature-gated variants excluded).  One constructor per
enumerated PAM return code. -/
inductive PamError
  | abort
  | acctExpired
  | authInfoUnavailable
  | authTokenAgingDisabled
  | authToken
  | authTokenExpired
  | authTokenLockBusy
  | authTokenRecovery
  | auth
  | buffer
  | conversation
  | creds
  | credsExpired
  | credsInsufficient
  | credsUnavailable
  | ignore
  | maxTries
  | unknownModule
  | newAuthTokenRequired
  | noModuleData
  | openErr
  | permissionDenied
  | service
  | session
  | symbol
  | system
  | tryAgain
  | unknownUser
deriving DecidableEq, Repr

/-- The discriminant of each `PamError` variant: the numeric PAM return code the
generated `ffi` module binds (Linux-PAM values `PAM_OPEN_ERR` through `PAM_MODULE_UNKNOWN`;
`PAM_SUCCESS` is 0 and is deliberately not a variant). -/
def PamError.toCode : PamError → Int
  | .openErr => 1
  | .symbol => 2
  | .service => 3
  | .system => 4
  | .buffer => 5
  | .permissionDenied => 6
  | .auth => 7
  | .credsInsufficient => 8
  | .authInfoUnavailable => 9
  | .unknownUser => 10
  | .maxTries => 11
  | .newAuthTokenRequired => 12
  | .acctExpired => 13
  | .session => 14
  | .credsUnavailable => 15
  | .credsExpired => 16
  | .creds => 17
  | .noModuleData => 18
  | .conversation => 19
  | .authToken => 20
  | .authTokenRecovery => 21
  | .authTokenLockBusy => 22
  | .authTokenAgingDisabled => 23
  | .tryAgain => 24
  | .ignore => 25
  | .abort => 26
  | .authTokenExpired => 27
  | .unknownModule => 28

/-- `PamError::try_from` (the `TryFromPrimitive` derive): recover the variant
whose discriminant equals the given code, failing on any other code. -/
def PamError.tryFromCode (c : Int) : Option PamError :=
  if c = 1 then some .openErr
  else if c = 2 then some .symbol
  else if c = 3 then some .service
  else if c = 4 then some .system
  else if c = 5 then some .buffer
  else if c = 6 then some .permissionDenied
  else if c = 7 then some .auth
  else if c = 8 then some .credsInsufficient
  else if c = 9 then some .authInfoUnavailable
  else if c = 10 then some .unknownUser
  else if c = 11 then some .maxTries
  else if c = 12 then some .newAuthTokenRequired
  else if c = 13 then some .acctExpired
  else if c = 14 then some .session
  else if c = 15 then some .credsUnavailable
  else if c = 16 then some .credsExpired
  else if c = 17 then some .creds
  else if c = 18 then some .noModuleData
  else if c = 19 then some .conversation
  else if c = 20 then some .authToken
  else if c = 21 then some .authTokenRecovery
  else if c = 22 then some .authTokenLockBusy
  else if c = 23 then some .authTokenAgingDisabled
  else if c = 24 then some .tryAgain
  else if c = 25 then some .ignore
  else if c = 26 then some .abort
  else if c = 27 then some .authTokenExpired
  else if c = 28 then some .unknownModule
  else none

/-- The return-code handling shared by every native call wrapper in
`crates/mk-pam/src/lib.rs` (`authenticate`, `validate`, `change_auth_token`,
`open_session`, `close_session`, `set_item`):
`match PamError::try_from(ret) { Ok(e) => Err(e.into()), Err(_) => Ok(()) }`. -/
def handleRetcode (ret : Int) : Except PamError Unit :=
  match PamError.tryFromCode ret with
  | some e => Except.error e
  | none => Except.ok ()

/-- `DurationResolution` from `crates/mk-common/src/lib.rs:41-47`. -/
inductive DurationResolution
  | seconds
  | minutes
  | days
deriving DecidableEq, Repr

/-- The `repr(u64)` discriminant of a resolution: seconds per unit. -/
def DurationResolution.secs : DurationResolution → Nat
  | .seconds => 1
  | .minutes => 60
  | .days => 86400

/-- Rust's `as i64` cast applied to a `u64` value (two's-complement wrap). -/
def u64AsI64 (n : Nat) : Int :=
  if n % 2 ^ 64 < 2 ^ 63 then ((n % 2 ^ 64 : Nat) : Int)
  else ((n % 2 ^ 64 : Nat) : Int) - 2 ^ 64

/-- `mk_common::ser_duration` (crates/mk-common/src/lib.rs:57-62).  A `Duration`
is represented by its `as_secs()` value (a `u64`, hence a `Nat` below `2 ^ 64`):
`Some(d)` becomes `(d.as_secs() / res as u64) as i64`, `None` becomes `-1`. -/
def ser_duration (dur : Option Nat) (res : DurationResolution) : Int :=
  match dur with
  | some d => u64AsI64 (d / res.secs)
  | none => -1

/-- `mk_common::de_duration` (crates/mk-common/src/lib.rs:69-75): negative means
`None`, otherwise `Duration::from_secs(val as u64 * res as u64)` (u64 multiply,
wrapping in release builds). -/
def de_duration (val : Int) (res : DurationResolution) : Option Nat :=
  if val < 0 then none
  else some (val.toNat * res.secs % 2 ^ 64)

/-- Little-endian byte decomposition of a natural number into `k` bytes. -/
def natToBytesLE : Nat → Nat → List Nat
  | 0, _ => []
  | k + 1, n => n % 256 :: natToBytesLE k (n / 256)

/-- Recompose a little-endian byte list into a natural number. -/
def bytesToNatLE : List Nat → Nat
  | [] => 0
  | b :: bs => b % 256 + 256 * bytesToNatLE bs

/-- `WriteBytesExt::write_i64::<NativeEndian>`: the 8 bytes of the
two's-complement encoding of the value (little-endian, as on the x86-64/aarch64
targets `mk` builds for). -/
def i64ToBytes (v : Int) : List Nat := natToBytesLE 8 (v % 2 ^ 64).toNat

/-- `ReadBytesExt::read_i64::<NativeEndian>`: decode 8 little-endian bytes as a
two's-complement signed 64-bit value. -/
def bytesToI64 (bs : List Nat) : Int := u64AsI64 (bytesToNatLE bs)

/-- `State::try_dump` from `src/session/state.rs:53-64`: the state's one field
(`last_used`, modelled as optional whole seconds since the epoch) is serialized
through `ser_duration` at `Minutes` resolution and written as one `i64`. -/
def State.try_dump (last_used : Option Nat) : List Nat :=
  i64ToBytes (ser_duration last_used DurationResolution.minutes)

/-- `State::try_recover` from `src/session/state.rs:35-42`: read one `i64` and
deserialize it through `de_duration` at `Minutes` resolution. -/
def State.try_recover (bs : List Nat) : Option Nat :=
  de_duration (bytesToI64 bs) DurationResolution.minutes

/-- `mk_pwd::Passwd` (crates/mk-pwd/src/lib.rs:22-38).  `uid`/`gid` are the
numeric ids; `password` is `None` when absent. -/
structure Passwd where
  name : String
  password : Option String
  uid : Nat
  gid : Nat
  gecos : Option String
  directory : String
  shell : String
deriving DecidableEq, Repr

/-- The `io::ErrorKind` values constructed by the modelled code. -/
inductive IoErrorKind
  | notFound
  | permissionDenied
  | invalidInput
  | invalidData
  | otherKind
deriving DecidableEq, Repr

/-- The top-level `Error` of `src/errors.rs`: a raw PAM error or an io error
(identified by its kind). -/
inductive Error
  | pam (e : PamError)
  | ioe (k : IoErrorKind)
deriving DecidableEq, Repr

/-- Session `Rules` of the revision in `src/session/config.rs:72-96`:
`timeout` in minutes, `no_auth`, and the `permitted` target list. -/
structure Rules where
  timeout : Nat
  no_auth : Bool
  permitted : List String
deriving DecidableEq, Repr

/-- `Rules::get_timeout`: `Duration::from_secs(self.timeout * 60)`, in seconds. -/
def Rules.get_timeout (r : Rules) : Nat := r.timeout * 60

/-- `Rules::get_no_auth`. -/
def Rules.get_no_auth (r : Rules) : Bool := r.no_auth

/-- `Rules::get_permitted`. -/
def Rules.get_permitted (r : Rules) : List String := r.permitted

/-- The session `State` of `src/session/config.rs:13-16` (the revision used by
`src/session/mod.rs`): one optional `last_active` time, in seconds since the
epoch. -/
structure SessionState where
  last_active : Option Nat
deriving DecidableEq, Repr

/-- The authenticator behind a session, abstracted by its observable results:
`validateRes` is what `auth.validate()` returns, `sessionRes` what
`auth.session(work)` returns.  The caller's `work` closure is only ever handed
to `auth.session`, so tracking that call tracks every opportunity for `work` to
run. -/
structure AuthOracle where
  validateRes : Except Error Unit
  sessionRes : Except Error (Except Error Unit)

/-- What a call to `UserSession::run` did: its return value, whether
`validate`/`session` were invoked, and the session state at return. -/
structure RunOutcome where
  ret : Except Error (Except Error Unit)
  validateCalled : Bool
  sessionCalled : Bool
  state : SessionState

/-- The re-validation trigger inside `UserSession::run`
(src/session/mod.rs:109-117): with a stored timestamp `s`, validate only when
`SystemTime::now().duration_since(s)` is `Ok` (i.e. `now ≥ s`) and the elapsed
duration strictly exceeds the timeout; with no stored timestamp, validate. -/
def staleCheck (last_active : Option Nat) (now timeoutSecs : Nat) : Bool :=
  match last_active with
  | some s => if now ≥ s then decide (now - s > timeoutSecs) else false
  | none => true

/-- `UserSession::run` from `src/session/mod.rs:90-123`.  Times are whole
seconds since the epoch; `now` is `SystemTime::now()`.  Source order: the
authorization check (own identity or a permitted target name) returns
`PermissionDenied` first; then, unless `no_auth`, a stale or absent timestamp
triggers `auth.validate()?` and `last_active` is set to `now`; finally the call
is delegated to `auth.session(work)`. -/
def UserSession.run (user : Passwd) (rules : Rules) (st : SessionState)
    (auth : AuthOracle) (now : Nat) (target : Passwd) : RunOutcome :=
  if ¬ (user = target ∨ target.name ∈ rules.get_permitted) then
    { ret := Except.error (Error.ioe IoErrorKind.permissionDenied),
      validateCalled := false, sessionCalled := false, state := st }
  else if rules.get_no_auth then
    { ret := auth.sessionRes, validateCalled := false, sessionCalled := true, state := st }
  else if staleCheck st.last_active now rules.get_timeout then
    match auth.validateRes with
    | Except.error e =>
      { ret := Except.error e, validateCalled := true, sessionCalled := false, state := st }
    | Except.ok _ =>
      { ret := auth.sessionRes, validateCalled := true, sessionCalled := true,
        state := { last_active := some now } }
  else
    { ret := auth.sessionRes, validateCalled := false, sessionCalled := true,
      state := { last_active := some now } }

/-- `nix::unistd::User`, restricted to the fields the modelled code reads. -/
structure User where
  name : String
  uid : Nat
  gid : Nat
deriving DecidableEq, Repr

/-- `Permits` from `src/permits.rs:18-26`: permitted target names plus the
`all-targets` override. -/
structure Permits where
  targets : List String
  all_targets : Bool
deriving DecidableEq, Repr

/-- `Permits::default()`: empty target list, `all_targets` false. -/
def Permits.defaults : Permits := { targets := [], all_targets := false }

/-- `Permits::root()`: default permits with `all_targets` set. -/
def Permits.root : Permits := { targets := [], all_targets := true }

/-- `App::check` from `src/cli/app.rs:77-91`: the authorization check of the
`Permits` revision, run by `App::exec` before `UserSession::run`.  Permission is
denied unless the target is the caller's own identity, or its name is in
`permits.targets`, or `permits.all_targets` is set. -/
def App.check (user : User) (permits : Permits) (target : User) : Except Error Unit :=
  if ¬ (user = target ∨ target.name ∈ permits.targets ∨ permits.all_targets = true) then
    Except.error (Error.ioe IoErrorKind.permissionDenied)
  else
    Except.ok ()

/-- `MkError` of the revision containing `src/auth/passwd.rs`: the variants its
`authenticate` can produce (`Auth`, a converted `FfiError` from `mk_crypt`, and
io errors from the prompt). -/
inductive MkError
  | auth
  | ffi (e : FfiError)
  | ioe (k : IoErrorKind)
deriving DecidableEq, Repr

/-- The external `shadow` crate's `Shadow` record as used by passwd.rs: only the
`password` field is read. -/
structure ShadowRec where
  password : String
deriving DecidableEq, Repr

/-- Lookup in the `HashMap<Uid, Instant>` of authenticated users, modelled as an
association list (instants in whole seconds). -/
def lookupCache (users : List (Nat × Nat)) (uid : Nat) : Option Nat :=
  match users.find? (fun p => p.1 == uid) with
  | some p => some p.2
  | none => none

/-- `HashMap::remove` on the authenticated-user cache. -/
def removeCache (users : List (Nat × Nat)) (uid : Nat) : List (Nat × Nat) :=
  users.filter (fun p => p.1 != uid)

/-- What a call to `PasswdAuthenticator::authenticate` did: its return value,
whether the password prompt was reached, and the cache at return. -/
structure AuthOutcome where
  res : Except MkError Unit
  prompted : Bool
  users : List (Nat × Nat)

/-- The prompt-and-compare tail of `PasswdAuthenticator::authenticate`
(src/auth/passwd.rs:60-67): prompt for a password (`prompt!` can fail), hash it
with `mk_crypt::crypt(&auth_password, &password)?`, fail with `MkError::Auth`
unless the stored field equals the computed hash, and on success record the uid
in the cache. -/
def promptAndCompare (users1 : List (Nat × Nat)) (now : Nat)
    (promptRes : Except MkError String)
    (cryptRes : String → String → Except FfiError String)
    (user : Passwd) (password : String) : AuthOutcome :=
  match promptRes with
  | Except.error e => { res := Except.error e, prompted := true, users := users1 }
  | Except.ok typed =>
    match cryptRes typed password with
    | Except.error e => { res := Except.error (MkError.ffi e), prompted := true, users := users1 }
    | Except.ok hashed =>
      if password ≠ hashed then
        { res := Except.error MkError.auth, prompted := true, users := users1 }
      else
        { res := Except.ok (), prompted := true,
          users := (user.uid, now) :: removeCache users1 user.uid }

/-- The body of `PasswdAuthenticator::authenticate` after the cache check
(src/auth/passwd.rs:39-67), `sdw` feature enabled: an absent password field
succeeds trivially; `*` fails with `MkError::Auth`; `x` substitutes the shadow
record's password (itself failing on the `*`/`!` sentinels, and succeeding
trivially when no shadow record exists); anything else is used directly. -/
def PasswdAuthenticator.authCore (users1 : List (Nat × Nat)) (now : Nat)
    (shadowLookup : String → Option ShadowRec)
    (promptRes : Except MkError String)
    (cryptRes : String → String → Except FfiError String)
    (user : Passwd) : AuthOutcome :=
  match user.password with
  | none => { res := Except.ok (), prompted := false, users := users1 }
  | some password0 =>
    if password0 = "*" then
      { res := Except.error MkError.auth, prompted := false, users := users1 }
    else if password0 = "x" then
      match shadowLookup user.name with
      | some s =>
        if s.password = "*" ∨ s.password = "!" then
          { res := Except.error MkError.auth, prompted := false, users := users1 }
        else
          promptAndCompare users1 now promptRes cryptRes user s.password
      | none => { res := Except.ok (), prompted := false, users := users1 }
    else
      promptAndCompare users1 now promptRes cryptRes user password0

/-- `PasswdAuthenticator::authenticate` from `src/auth/passwd.rs:29-68`.  The
cache is consulted first: a uid authenticated less than 600 seconds ago
succeeds immediately; an expired entry is removed and authentication proceeds.
External effects are supplied as data: `shadowLookup` is
`shadow::Shadow::from_name`, `promptRes` the prompt's result, `cryptRes` the
behaviour of `mk_crypt::crypt`, `now` is `Instant::now()` (the source's
`Instant` subtraction requires `now ≥ t`, matching `Nat` subtraction here). -/
def PasswdAuthenticator.authenticate (users : List (Nat × Nat)) (now : Nat)
    (shadowLookup : String → Option ShadowRec)
    (promptRes : Except MkError String)
    (cryptRes : String → String → Except FfiError String)
    (user : Passwd) : AuthOutcome :=
  match lookupCache users user.uid with
  | some t =>
    if now - t < 600 then { res := Except.ok (), prompted := false, users := users }
    else
      PasswdAuthenticator.authCore (removeCache users user.uid) now shadowLookup
        promptRes cryptRes user
  | none => PasswdAuthenticator.authCore users now shadowLookup promptRes cryptRes user

/-- `ItemKind` from `crates/mk-pam/src/lib.rs:48-71`: the PAM item types. -/
inductive PamItemKind
  | service
  | user
  | userPrompt
  | tty
  | requestUser
  | requestHost
  | authToken
  | oldAuthToken
  | conversation
deriving DecidableEq, Repr

/-- `Items::set_str` from `crates/mk-pam/src/lib.rs:80-85`: build the `(item
kind, payload)` write handed to `pam_set_item`.  The kind argument in the source
is literally `ItemKind::RequestUser as c_int`; `CString::new(data)?` fails on an
interior nul, in which case nothing is written. -/
def Items.set_str (data : String) : Option (PamItemKind × String) :=
  if hasNul data then none else some (PamItemKind.requestUser, data)

/-- `Items::set_user` from `crates/mk-pam/src/lib.rs:89-91`: delegates to
`set_str`. -/
def Items.set_user (user : String) : Option (PamItemKind × String) :=
  Items.set_str user

/-- `Items::set_request_user` from `crates/mk-pam/src/lib.rs:98-100`: delegates
to `set_str`. -/
def Items.set_request_user (user : String) : Option (PamItemKind × String) :=
  Items.set_str user

/-- Concrete session user used by witnesses. -/
def alice : Passwd := ⟨"alice", some "x", 1000, 1000, none, "/home/alice", "/bin/sh"⟩

/-- Concrete non-permitted target used by witnesses. -/
def bob : Passwd := ⟨"bob", none, 1001, 1001, none, "/home/bob", "/bin/sh"⟩

/-- Identity whose stored password field is the `*` sentinel. -/
def starUser : Passwd := ⟨"mallory", some "*", 1000, 1000, none, "/home/mallory", "/bin/sh"⟩

/-- Identity with no password field. -/
def nonePwUser : Passwd := ⟨"nopw", none, 1003, 1003, none, "/home/nopw", "/bin/sh"⟩

/-- Identity whose password field is the shadow-indirection sentinel `x`. -/
def xUser : Passwd := ⟨"xena", some "x", 1002, 1002, none, "/home/xena", "/bin/sh"⟩

/-- A shadow database with no records. -/
def noShadow : String → Option ShadowRec := fun _ => none

/-- A crypt behaviour that hashes successfully to a fixed string. -/
def cryptStub : String → String → Except FfiError String := fun _ _ => Except.ok "$6$out"

/-- An authenticator whose validate and session calls both succeed. -/
def oracleOk : AuthOracle := ⟨Except.ok (), Except.ok (Except.ok ())⟩

/-- Session rules permitting only the target name `root`. -/
def rulesRoot : Rules := ⟨10, false, ["root"]⟩

/-- Concrete caller for the `App::check` witness. -/
def userAlice : User := ⟨"alice", 1000, 1000⟩

/-- Concrete target for the `App::check` witness. -/
def userBob : User := ⟨"bob", 1001, 1001⟩

/-! ## Theorems -/

/-- Decomposing into 8 little-endian bytes and recomposing reduces modulo
`2 ^ 64`. -/
theorem bytesToNatLE_natToBytesLE_eight (n : Nat) :
    bytesToNatLE (natToBytesLE 8 n) = n % 2 ^ 64 := by
  simp [natToBytesLE, bytesToNatLE]
  omega

/-- The `u64`-to-`i64` cast is the identity below `2 ^ 63`. -/
theorem u64AsI64_small (n : Nat) (h : n < 2 ^ 63) : u64AsI64 n = (n : Int) := by
  unfold u64AsI64
  split <;> omega

/-- The 8-byte two's-complement encoding round-trips every value in the `i64`
range. -/
theorem bytesToI64_i64ToBytes (v : Int) (h1 : -(2 ^ 63) ≤ v) (h2 : v < 2 ^ 63) :
    bytesToI64 (i64ToBytes v) = v := by
  unfold bytesToI64 i64ToBytes
  rw [bytesToNatLE_natToBytesLE_eight]
  unfold u64AsI64
  split <;> omega

/-- C2: the claim that the busy flag is cleared on every exit path of
`mk_crypt::crypt` fails on the code: with `CRYPT_LOCK` initially clear, a
phrase with an interior nul byte makes the call return the `NulByte` error with
the flag still set, so a subsequent well-formed call is rejected as busy. -/
theorem crypt_nul_byte_leaves_lock_set :
    (crypt false ffiOk nulStr "setting").1 = Except.error FfiError.nulByte ∧
    (crypt false ffiOk nulStr "setting").2 = true ∧
    (crypt (crypt false ffiOk nulStr "setting").2 ffiOk "Hello" "setting").1
      = Except.error FfiError.invalidPtr :=
  ⟨rfl, rfl, rfl⟩

/-- C5: the claim that guard-busy is a distinct retryable error fails on the
code: an overlapping call is rejected with `FfiError::InvalidPtr` — the very
variant returned when the native hash routine fails — not with
`ResourceUnavailable` as the function's own documentation promises. -/
theorem crypt_busy_error_collides_with_hash_failure :
    (crypt true ffiOk "Hello" "setting").1 = Except.error FfiError.invalidPtr ∧
    (crypt false ffiNull "Hello" "setting").1 = Except.error FfiError.invalidPtr ∧
    FfiError.invalidPtr ≠ FfiError.resourceUnavailable :=
  ⟨rfl, rfl, by decide⟩

/-- C4 counterexample: the nonzero code 999 is outside the enumerated set, yet
the shared return-code handling of the PAM call wrappers reports success. -/
theorem handleRetcode_swallows_unknown_code :
    PamError.tryFromCode 999 = none ∧ handleRetcode 999 = Except.ok () ∧ (999 : Int) ≠ 0 :=
  ⟨rfl, rfl, by decide⟩

/-- C4 (amended): every enumerated PAM return code maps one-to-one onto a
`PamError` variant (the discriminant map is injective and each wrapped call
reports the corresponding error), but any code outside the enumerated set —
zero or nonzero — is reported as success. -/
theorem pam_retcode_mapping :
    (∀ e : PamError, PamError.tryFromCode e.toCode = some e) ∧
    (∀ a b : PamError, a.toCode = b.toCode → a = b) ∧
    (∀ e : PamError, handleRetcode e.toCode = Except.error e) ∧
    (∀ c : Int, PamError.tryFromCode c = none → handleRetcode c = Except.ok ()) := by
  have h1 : ∀ e : PamError, PamError.tryFromCode e.toCode = some e := by
    intro e
    cases e <;> rfl
  refine ⟨h1, ?_, ?_, ?_⟩
  · intro a b h
    have ha := h1 a
    rw [h, h1 b] at ha
    exact ((Option.some.injEq _ _).mp ha).symm
  · intro e
    unfold handleRetcode
    rw [h1 e]
  · intro c hc
    unfold handleRetcode
    rw [hc]

/-- Witness for C4's amended mapping at concrete codes. -/
theorem pam_retcode_mapping_witness :
    PamError.tryFromCode PamError.auth.toCode = some PamError.auth ∧
    PamError.auth = PamError.auth ∧
    handleRetcode PamError.auth.toCode = Except.error PamError.auth ∧
    handleRetcode 999 = Except.ok () :=
  ⟨pam_retcode_mapping.1 PamError.auth,
   pam_retcode_mapping.2.1 PamError.auth PamError.auth rfl,
   pam_retcode_mapping.2.2.1 PamError.auth,
   pam_retcode_mapping.2.2.2 999 rfl⟩

/-- C9: serializing a timestamp (whole seconds, `u64` range) and deserializing
it recovers the timestamp truncated to the minute resolution; `None` serializes
to the negative sentinel `-1` and round-trips to `None`; and the serialized
record is always exactly 8 bytes. -/
theorem state_serialization_roundtrip (t : Nat) (lastUsed : Option Nat) (h : t < 2 ^ 64) :
    State.try_recover (State.try_dump (some t)) = some (t / 60 * 60) ∧
    ser_duration none DurationResolution.minutes = -1 ∧
    State.try_recover (State.try_dump none) = none ∧
    (State.try_dump lastUsed).length = 8 := by
  refine ⟨?_, rfl, ?_, ?_⟩
  · simp only [State.try_recover, State.try_dump, ser_duration, DurationResolution.secs]
    rw [u64AsI64_small _ (by omega)]
    rw [bytesToI64_i64ToBytes _ (by omega) (by omega)]
    unfold de_duration
    rw [if_neg (by omega)]
    simp only [DurationResolution.secs, Option.some.injEq, Int.toNat_natCast]
    omega
  · simp only [State.try_recover, State.try_dump, ser_duration, DurationResolution.secs]
    rw [bytesToI64_i64ToBytes _ (by norm_num) (by norm_num)]
    unfold de_duration
    rw [if_pos (by norm_num)]
  · cases lastUsed <;> simp [State.try_dump, i64ToBytes, natToBytesLE]

/-- Witness for C9 at a concrete timestamp (90 s truncates to 60 s). -/
theorem state_serialization_roundtrip_witness :
    State.try_recover (State.try_dump (some 90)) = some (90 / 60 * 60) ∧
    State.try_recover (State.try_dump none) = none ∧
    (State.try_dump (some 90)).length = 8 :=
  ⟨(state_serialization_roundtrip 90 (some 90) (by norm_num)).1,
   (state_serialization_roundtrip 90 (some 90) (by norm_num)).2.2.1,
   (state_serialization_roundtrip 90 (some 90) (by norm_num)).2.2.2⟩

/-- C1: a target that is neither the session's own identity nor in the
permitted list makes `UserSession::run` return `PermissionDenied`, and neither
`validate` nor the session bracket carrying `work` is ever invoked — for every
authenticator behaviour, including one whose credentials would succeed.  (The
`Rules` of this revision carry no all-targets flag, so the check is exactly
own-identity-or-permitted.) -/
theorem run_denies_unpermitted_target (user target : Passwd) (rules : Rules)
    (st : SessionState) (auth : AuthOracle) (now : Nat)
    (hne : user ≠ target) (hmem : target.name ∉ rules.get_permitted) :
    (UserSession.run user rules st auth now target).ret
      = Except.error (Error.ioe IoErrorKind.permissionDenied) ∧
    (UserSession.run user rules st auth now target).validateCalled = false ∧
    (UserSession.run user rules st auth now target).sessionCalled = false := by
  unfold UserSession.run
  rw [if_pos (not_or.mpr ⟨hne, hmem⟩)]
  exact ⟨rfl, rfl, rfl⟩

/-- Witness for C1: alice running as bob under root-only permits. -/
theorem run_denies_unpermitted_target_witness :
    (UserSession.run alice rulesRoot ⟨none⟩ oracleOk 0 bob).ret
      = Except.error (Error.ioe IoErrorKind.permissionDenied) ∧
    (UserSession.run alice rulesRoot ⟨none⟩ oracleOk 0 bob).validateCalled = false ∧
    (UserSession.run alice rulesRoot ⟨none⟩ oracleOk 0 bob).sessionCalled = false :=
  run_denies_unpermitted_target alice bob rulesRoot ⟨none⟩ oracleOk 0
    (by decide) (by decide)

/-- C8: with a stored validation timestamp `T`, refresh interval
`rules.get_timeout` seconds, and `no_auth` false, a run (as the session's own
identity) at `T + interval - 1` does not call `validate`, and a run at
`T + interval + 1` does. -/
theorem run_revalidation_window (user : Passwd) (rules : Rules) (auth : AuthOracle)
    (T : Nat) (hna : rules.no_auth = false) :
    (UserSession.run user rules ⟨some T⟩ auth (T + rules.get_timeout - 1) user).validateCalled
      = false ∧
    (UserSession.run user rules ⟨some T⟩ auth (T + rules.get_timeout + 1) user).validateCalled
      = true := by
  obtain ⟨vr, sr⟩ := auth
  constructor
  · unfold UserSession.run
    rw [if_neg (by simp)]
    rw [if_neg (by simp [Rules.get_no_auth, hna])]
    rw [if_neg ?hstale]
    case hstale =>
      simp only [staleCheck]
      split
      · simp only [decide_eq_true_eq]
        omega
      · simp
  · unfold UserSession.run
    rw [if_neg (by simp)]
    rw [if_neg (by simp [Rules.get_no_auth, hna])]
    rw [if_pos ?hstale2]
    case hstale2 =>
      simp only [staleCheck]
      rw [if_pos (by omega)]
      simp only [decide_eq_true_eq]
      omega
    cases vr <;> rfl

/-- Witness for C8: timeout 10 minutes (600 s), stored timestamp 1000. -/
theorem run_revalidation_window_witness :
    (UserSession.run alice rulesRoot ⟨some 1000⟩ oracleOk (1000 + rulesRoot.get_timeout - 1)
        alice).validateCalled = false ∧
    (UserSession.run alice rulesRoot ⟨some 1000⟩ oracleOk (1000 + rulesRoot.get_timeout + 1)
        alice).validateCalled = true :=
  run_revalidation_window alice rulesRoot oracleOk 1000 rfl

/-- C3: with `all_targets` set in the permits, the authorization check
(`App::check`, which `App::exec` runs before `UserSession::run`) permits every
target: it never returns `PermissionDenied`. -/
theorem check_all_targets_never_denies (user target : User) (permits : Permits)
    (h : permits.all_targets = true) :
    App.check user permits target = Except.ok () := by
  unfold App.check
  rw [if_neg (by simp [h])]

/-- Witness for C3: the root permits allow running as any other user. -/
theorem check_all_targets_never_denies_witness :
    App.check userAlice Permits.root userBob = Except.ok () :=
  check_all_targets_never_denies userAlice userBob Permits.root rfl

/-- C6 counterexample: with uid 1000 cached moments ago, an identity whose
stored password field is `*` authenticates successfully (without a prompt)
instead of failing with `MkError::Auth`. -/
theorem cached_star_identity_authenticates :
    starUser.password = some "*" ∧
    (PasswdAuthenticator.authenticate [(1000, 50)] 50 noShadow (Except.ok "pw")
        cryptStub starUser).res = Except.ok () ∧
    (PasswdAuthenticator.authenticate [(1000, 50)] 50 noShadow (Except.ok "pw")
        cryptStub starUser).prompted = false :=
  ⟨rfl, rfl, rfl⟩

/-- C6 (amended): provided the identity's uid has no unexpired (less than 600
seconds old) entry in the authenticated-user cache, an absent password field
succeeds trivially without prompting, and a stored password field equal to the
sentinel `*` fails with `MkError::Auth` without ever prompting. -/
theorem authenticate_absent_and_star_sentinel (users : List (Nat × Nat)) (now : Nat)
    (shadowLookup : String → Option ShadowRec) (promptRes : Except MkError String)
    (cryptRes : String → String → Except FfiError String) (user : Passwd)
    (hcache : ∀ t, lookupCache users user.uid = some t → ¬ now - t < 600) :
    (user.password = none →
      (PasswdAuthenticator.authenticate users now shadowLookup promptRes cryptRes user).res
        = Except.ok () ∧
      (PasswdAuthenticator.authenticate users now shadowLookup promptRes cryptRes user).prompted
        = false) ∧
    (user.password = some "*" →
      (PasswdAuthenticator.authenticate users now shadowLookup promptRes cryptRes user).res
        = Except.error MkError.auth ∧
      (PasswdAuthenticator.authenticate users now shadowLookup promptRes cryptRes user).prompted
        = false) := by
  have hcore : ∀ us : List (Nat × Nat),
      (user.password = none →
        (PasswdAuthenticator.authCore us now shadowLookup promptRes cryptRes user).res
          = Except.ok () ∧
        (PasswdAuthenticator.authCore us now shadowLookup promptRes cryptRes user).prompted
          = false) ∧
      (user.password = some "*" →
        (PasswdAuthenticator.authCore us now shadowLookup promptRes cryptRes user).res
          = Except.error MkError.auth ∧
        (PasswdAuthenticator.authCore us now shadowLookup promptRes cryptRes user).prompted
          = false) := by
    intro us
    constructor
    · intro hp
      simp [PasswdAuthenticator.authCore, hp]
    · intro hp
      simp [PasswdAuthenticator.authCore, hp]
  unfold PasswdAuthenticator.authenticate
  split
  next t heq =>
    rw [if_neg (hcache t heq)]
    exact hcore _
  next heq => exact hcore users

/-- Witness for C6's amended claim with an empty cache. -/
theorem authenticate_absent_and_star_sentinel_witness :
    (PasswdAuthenticator.authenticate [] 0 noShadow (Except.ok "pw") cryptStub nonePwUser).res
      = Except.ok () ∧
    (PasswdAuthenticator.authenticate [] 0 noShadow (Except.ok "pw") cryptStub starUser).res
      = Except.error MkError.auth ∧
    (PasswdAuthenticator.authenticate [] 0 noShadow (Except.ok "pw") cryptStub starUser).prompted
      = false :=
  ⟨((authenticate_absent_and_star_sentinel [] 0 noShadow (Except.ok "pw") cryptStub nonePwUser
      (fun _ h => Option.noConfusion h)).1 rfl).1,
   ((authenticate_absent_and_star_sentinel [] 0 noShadow (Except.ok "pw") cryptStub starUser
      (fun _ h => Option.noConfusion h)).2 rfl).1,
   ((authenticate_absent_and_star_sentinel [] 0 noShadow (Except.ok "pw") cryptStub starUser
      (fun _ h => Option.noConfusion h)).2 rfl).2⟩

/-- C7: an identity whose password field is the shadow-indirection sentinel `x`
and whose shadow lookup finds no record authenticates successfully, without a
prompt and without comparing any hash (for every cache state). -/
theorem authenticate_x_without_shadow_record (users : List (Nat × Nat)) (now : Nat)
    (shadowLookup : String → Option ShadowRec) (promptRes : Except MkError String)
    (cryptRes : String → String → Except FfiError String) (user : Passwd)
    (hp : user.password = some "x") (hs : shadowLookup user.name = none) :
    (PasswdAuthenticator.authenticate users now shadowLookup promptRes cryptRes user).res
      = Except.ok () ∧
    (PasswdAuthenticator.authenticate users now shadowLookup promptRes cryptRes user).prompted
      = false := by
  have hcore : ∀ us : List (Nat × Nat),
      (PasswdAuthenticator.authCore us now shadowLookup promptRes cryptRes user).res
        = Except.ok () ∧
      (PasswdAuthenticator.authCore us now shadowLookup promptRes cryptRes user).prompted
        = false := by
    intro us
    simp [PasswdAuthenticator.authCore, hp, hs]
  unfold PasswdAuthenticator.authenticate
  split
  next t heq =>
    by_cases h6 : now - t < 600
    · rw [if_pos h6]
      exact ⟨rfl, rfl⟩
    · rw [if_neg h6]
      exact hcore _
  next heq => exact hcore users

/-- Witness for C7 at a concrete identity with an empty shadow database. -/
theorem authenticate_x_without_shadow_record_witness :
    (PasswdAuthenticator.authenticate [] 0 noShadow (Except.ok "pw") cryptStub xUser).res
      = Except.ok () ∧
    (PasswdAuthenticator.authenticate [] 0 noShadow (Except.ok "pw") cryptStub xUser).prompted
      = false :=
  authenticate_x_without_shadow_record [] 0 noShadow (Except.ok "pw") cryptStub xUser rfl rfl

/-- C10: `set_user` and `set_request_user` are extensionally equal, every write
either produces targets the `RequestUser` (RUSER) item, and no write of this
interface targets the `User` (USER) item. -/
theorem items_user_setters_write_ruser :
    (∀ s, Items.set_user s = Items.set_request_user s) ∧
    (∀ s kd, Items.set_user s = some kd → kd.1 = PamItemKind.requestUser) ∧
    (∀ s kd, Items.set_str s = some kd → kd.1 ≠ PamItemKind.user) := by
  refine ⟨fun s => rfl, ?_, ?_⟩
  · intro s kd h
    unfold Items.set_user Items.set_str at h
    split at h
    · exact absurd h (by simp)
    · injection h with h2
      rw [← h2]
  · intro s kd h
    unfold Items.set_str at h
    split at h
    · exact absurd h (by simp)
    · injection h with h2
      rw [← h2]
      simp

/-- Witness for C10 at a concrete user name. -/
theorem items_user_setters_write_ruser_witness :
    Items.set_user "alice" = Items.set_request_user "alice" ∧
    (PamItemKind.requestUser, "alice").1 = PamItemKind.requestUser ∧
    (PamItemKind.requestUser, "alice").1 ≠ PamItemKind.user :=
  ⟨items_user_setters_write_ruser.1 "alice",
   items_user_setters_write_ruser.2.1 "alice" (PamItemKind.requestUser, "alice") rfl,
   items_user_setters_write_ruser.2.2 "alice" (PamItemKind.requestUser, "alice") rfl⟩

end Mk
